import Mathlib

/-!
Verification development for the `MusicAPI` aggregation core of the
Praveshan music chat-bot (src/main.py).  Strings are modelled as `List Char`;
Python dictionaries coming back from the JSON providers are modelled as
structures whose fields are `Option`-valued when the code tolerates their
absence.  A Python function that can raise inside a `try` block whose
`except` converts the fault into the adapter's no-data sentinel is modelled
as an `Option`-returning function composed with that conversion.
-/

namespace Praveshan

/-- Strings are lists of characters. -/
abbrev Str := List Char

/-- Coerce a Lean string literal into the character-list model. -/
def str (s : String) : Str := s.data

/-- Whitespace predicate used by Python `str.strip()` (ASCII fragment). -/
def pySpace (c : Char) : Bool :=
  c == ' ' || c == '\t' || c == '\n' || c == '\r' || c == '\x0b' || c == '\x0c'

/-- Python `s.strip()`: drop whitespace from both ends. -/
def pyStrip (s : Str) : Str :=
  ((s.dropWhile pySpace).reverse.dropWhile pySpace).reverse

/-- Split `s` at the first occurrence of `pat` (Python `s.split(pat, 1)`
when `pat in s`); `none` when `pat` does not occur in `s`. -/
def splitOnce (pat : Str) (s : Str) : Option (Str × Str) :=
  match s with
  | [] => if pat.isPrefixOf ([] : Str) then some ([], []) else none
  | c :: rest =>
    if pat.isPrefixOf (c :: rest) then some ([], (c :: rest).drop pat.length)
    else
      match splitOnce pat rest with
      | some (l, r) => some (c :: l, r)
      | none => none

/-- Python `pat in s` (substring containment). -/
def strContains (s pat : Str) : Bool := (splitOnce pat s).isSome

/-- Python `s.split(pat)[0]`: everything before the first occurrence of
`pat`, or all of `s` when `pat` does not occur. -/
def truncAt (pat s : Str) : Str :=
  match splitOnce pat s with
  | some (l, _) => l
  | none => s

/-- The separator list of `lyrics_command` (src/main.py line 174), in
priority order. -/
def separators : List Str := [str " by ", str " - ", str " | "]

/-- The separator loop of `lyrics_command` (src/main.py lines 177-182):
take the first separator of the list that occurs in the query and split the
query once at its first occurrence. -/
def findSep : List Str → Str → Option (Str × Str)
  | [], _ => none
  | sep :: rest, q =>
    match splitOnce sep q with
    | some (l, r) => some (l, r)
    | none => findSep rest q

/-- The query parser of `lyrics_command` (src/main.py lines 174-194) as a
pure function.  `none` is the parse-failure path (the `if not artist:`
fallback): it is taken when no separator occurs, and also when the
artist-side piece strips to the empty string, because Python treats `""` as
falsy.  On success both pieces are stripped, the artist is cut at
`" ft."` then `" feat."`, the title at `" ("`, and both are stripped
again. -/
def parse_query (q : Str) : Option (Str × Str) :=
  match findSep separators q with
  | none => none
  | some (l, r) =>
    let title := pyStrip l
    let artist := pyStrip r
    if artist = [] then none
    else
      some (pyStrip (truncAt (str " (") title),
            pyStrip (truncAt (str " feat.") (truncAt (str " ft.") artist)))

/-- Index of the first occurrence of `pat` in `s`, if any. -/
def firstOcc (pat s : Str) : Option Nat :=
  (splitOnce pat s).map (fun p => p.1.length)

/-- Truncation of the artist exactly as claim C1 words it: cut at the
first occurrence of " ft." or " feat.", whichever comes first. -/
def claimTruncArtist (a : Str) : Str :=
  match firstOcc (str " ft.") a, firstOcc (str " feat.") a with
  | some i, some j => a.take (min i j)
  | some i, none => a.take i
  | none, some j => a.take j
  | none, none => a

/-- The parser exactly as claim C1 words it: split at the first occurrence
of the highest-priority separator present, strip both pieces, then truncate
the artist at the first " ft." or " feat." and the title at the first " (",
with no further stripping and no emptiness check. -/
def parse_query_as_claimed (q : Str) : Option (Str × Str) :=
  match findSep separators q with
  | none => none
  | some (l, r) =>
    some (truncAt (str " (") (pyStrip l), claimTruncArtist (pyStrip r))

/-- The highest-priority separator occurring in `q`, if any: the first
element of `separators` that is a substring of `q`. -/
def highest_priority_sep (q : Str) : Option Str :=
  (separators.filter (fun sep => strContains q sep)).head?

/-- A well-formed "title - artist" input: the pieces are already
stripped and non-empty, concatenating them around " - " introduces no
higher-priority " by " separator, the split at the first " - " recovers
exactly the two pieces, and neither piece triggers a truncation
pattern. -/
def well_formed_title_artist (t a : Str) : Prop :=
  strContains (t ++ str " - " ++ a) (str " by ") = false ∧
  splitOnce (str " - ") (t ++ str " - " ++ a) = some (t, a) ∧
  pyStrip t = t ∧ pyStrip a = a ∧ t ≠ [] ∧ a ≠ [] ∧
  strContains a (str " ft.") = false ∧
  strContains a (str " feat.") = false ∧
  strContains t (str " (") = false

instance (t a : Str) : Decidable (well_formed_title_artist t a) := by
  unfold well_formed_title_artist; infer_instance

/-!
HTTP layer.  An outcome of one `session.get` is either a timeout
(`asyncio.TimeoutError`), some other transport/serialization fault
(any other exception, including a body that fails to parse as JSON),
or a response carrying a status code and a parsed body.
-/

/-- Outcome of one HTTP GET as the adapters observe it. -/
inductive HttpOutcome (β : Type) where
  | timeout : HttpOutcome β
  | error : HttpOutcome β
  | response (status : Nat) (body : β) : HttpOutcome β
deriving DecidableEq

/-- `MusicAPI.fetch_json` (src/main.py lines 38-52): parsed body on
HTTP 200, `None` on any other status, on timeout, and on any other
exception. -/
def fetch_json {β : Type} (o : HttpOutcome β) : Option β :=
  match o with
  | .timeout => none
  | .error => none
  | .response status body => if status = 200 then some body else none

/-- Body of a lyrics.ovh response: a JSON object that may carry a
`lyrics` and/or an `error` field. -/
structure LyricsBody where
  lyrics : Option Str
  error : Option Str
deriving DecidableEq

/-- `MusicAPI.get_lyrics` (src/main.py lines 54-63): the lyrics text when
the `lyrics` field is present, `"Error: "` prefixed to the `error` field
when only that is present, `None` otherwise. -/
def get_lyrics (o : HttpOutcome LyricsBody) : Option Str :=
  match fetch_json o with
  | none => none
  | some d =>
    match d.lyrics with
    | some l => some l
    | none =>
      match d.error with
      | some e => some (str "Error: " ++ e)
      | none => none

/-!
MusicBrainz track search.  A recording object is modelled with the fields
the code reads; each is `Option`-valued because the code tolerates (or
crashes on) its absence in distinct ways: `recording.get` calls degrade
to defaults, while `recording['id']` and `tag['name']` raise `KeyError`
and `recording.get('artist-credit', [{}])[0]` raises `IndexError` on an
empty list — all caught by `search_track`'s `except`, which returns
`None`.
-/

/-- One element of a recording's `releases` array. -/
structure ReleaseJson where
  title : Option Str
  date : Option Str
deriving DecidableEq

/-- One element of a recording's `artist-credit` array. -/
structure ArtistCreditJson where
  name : Option Str
deriving DecidableEq

/-- One element of a recording's `tags` array. -/
structure TagJson where
  name : Option Str
deriving DecidableEq

/-- A MusicBrainz recording object, restricted to the fields
`_format_track` reads.  `length` is the duration in milliseconds
(a non-negative integer upstream). -/
structure RecordingJson where
  id : Option Str
  title : Option Str
  length : Option Nat
  releases : Option (List ReleaseJson)
  artistCredit : Option (List ArtistCreditJson)
  tags : Option (List TagJson)
deriving DecidableEq

/-- The normalized track record produced by `_format_track`. -/
structure TrackRecord where
  title : Str
  artist : Str
  album : Str
  duration : Nat
  url : Str
  tags : List Str
deriving DecidableEq

/-- `MusicAPI._format_track` (src/main.py lines 91-109).  `none` models an
uncaught exception escaping to `search_track`'s handler: a missing `id`
key, an `artist-credit` field that is present but an empty array, or a
tag object without a `name` key. -/
def format_track (r : RecordingJson) : Option TrackRecord := do
  let album :=
    match r.releases with
    | some (rel :: _) => rel.title.getD (str "Unknown Album")
    | _ => str "Unknown Album"
  let releaseDate :=
    match r.releases with
    | some (rel :: _) =>
      match rel.date with
      | some d => str " (" ++ d ++ str ")"
      | none => ([] : Str)
    | _ => ([] : Str)
  let artist ←
    match r.artistCredit with
    | none => some (str "Unknown Artist")
    | some [] => none
    | some (ac :: _) => some (ac.name.getD (str "Unknown Artist"))
  let rid ← r.id
  let tagNames ← ((r.tags.getD []).take 3).mapM (fun t => t.name)
  some
    { title := r.title.getD (str "Unknown Track")
      artist := artist
      album := album ++ releaseDate
      duration := r.length.getD 0 / 1000
      url := str "https://musicbrainz.org/recording/" ++ rid
      tags := tagNames }

/-- Body of a MusicBrainz search response. -/
structure SearchBody where
  recordings : Option (List RecordingJson)
deriving DecidableEq

/-- `MusicAPI.search_track` (src/main.py lines 65-89): on a 200 response
with a non-empty `recordings` array, format the first recording; every
other path (non-200, transport error, empty or missing array, formatting
exception) returns `None`. -/
def search_track (o : HttpOutcome SearchBody) : Option TrackRecord :=
  match o with
  | .timeout => none
  | .error => none
  | .response status body =>
    if status = 200 then
      match body.recordings with
      | some (r :: _) => format_track r
      | _ => none
    else none

/-!
Deezer trending chart.  A chart entry is a full Deezer track object;
`get_trending` never looks inside the entries, it returns them as-is.
The model keeps, besides the `title` and `artist.name` fields the
rendering layer later reads, the numeric `id` Deezer sends with every
track, standing for the fields outside the title/artist pair.
-/

/-- The `artist` object of a Deezer track. -/
structure DeezerArtist where
  name : Str
deriving DecidableEq

/-- A Deezer chart track as the provider sends it: title, artist, and
(standing for the rest of the provider's schema) its numeric id. -/
structure DeezerTrack where
  title : Str
  artist : DeezerArtist
  id : Nat
deriving DecidableEq

/-- The `tracks` object of the Deezer charts body. -/
structure ChartsTracks where
  data : Option (List DeezerTrack)
deriving DecidableEq

/-- Body of a Deezer charts response. -/
structure ChartsBody where
  tracks : Option ChartsTracks
deriving DecidableEq

/-- The reduced pair of claim C4's wording. -/
structure TrendingEntry where
  title : Str
  artistName : Str
deriving DecidableEq

/-- Reduction of a provider track to the pair of claim C4's wording. -/
def reduceEntry (t : DeezerTrack) : TrendingEntry :=
  { title := t.title, artistName := t.artist.name }

/-- `MusicAPI.get_trending` (src/main.py lines 111-120): on a 200
response, the first at most 10 elements of
`data.get('tracks', \x7b\x7d).get('data', [])`, unchanged; every failure
path returns the empty list. -/
def get_trending (o : HttpOutcome ChartsBody) : List DeezerTrack :=
  match o with
  | .timeout => []
  | .error => []
  | .response status body =>
    if status = 200 then
      (match body.tracks with
       | none => []
       | some t => t.data.getD []).take 10
    else []

/-- The trending adapter exactly as claim C4 words it: the first at most
10 entries, each reduced to a title/artistName pair. -/
def get_trending_as_claimed (o : HttpOutcome ChartsBody) : List TrendingEntry :=
  (get_trending o).map reduceEntry

/-!
Last.fm tag-based top tracks, shared by the recommendation and mood
adapters.  The request parameters are modelled explicitly because claim C7
is about both adapters building the same request.  An unset
`LASTFM_API_KEY` environment variable makes `os.getenv` return `None`;
aiohttp then raises while serializing the `None` parameter value, inside
the `try`, so the adapter returns the empty list.
-/

/-- The query-parameter dictionary sent to the Last.fm endpoint. -/
structure LastFmParams where
  method : Str
  tag : Str
  api_key : Option Str
  format : Str
  limit : Nat
deriving DecidableEq

/-- Parameters built by `get_recommendations` (src/main.py lines 125-131). -/
def recommendations_params (apiKey : Option Str) (genre : Str) : LastFmParams :=
  { method := str "tag.gettoptracks"
    tag := genre
    api_key := apiKey
    format := str "json"
    limit := 5 }

/-- Parameters built by `get_mood_songs` (src/main.py lines 143-149). -/
def mood_params (apiKey : Option Str) (mood : Str) : LastFmParams :=
  { method := str "tag.gettoptracks"
    tag := mood
    api_key := apiKey
    format := str "json"
    limit := 5 }

/-- The `artist` object of a Last.fm track. -/
structure LastFmArtist where
  name : Option Str
deriving DecidableEq

/-- A Last.fm track; `track['name']` and `track['artist']['name']` raise
`KeyError` when absent, so both fields are `Option`-valued. -/
structure LastFmTrack where
  name : Option Str
  artist : Option LastFmArtist
deriving DecidableEq

/-- The `tracks` object of a Last.fm top-tracks body. -/
structure LastFmTracksObj where
  track : Option (List LastFmTrack)
deriving DecidableEq

/-- Body of a Last.fm top-tracks response. -/
structure LastFmBody where
  tracks : Option LastFmTracksObj
deriving DecidableEq

/-- Python `data.get('tracks', \x7b\x7d).get('track', [])`. -/
def lastfm_track_list (b : LastFmBody) : List LastFmTrack :=
  match b.tracks with
  | none => []
  | some t => t.track.getD []

/-- `MusicAPI.get_recommendations` (src/main.py lines 122-138): with the
API key set and a 200 response, `track['name']` for every listed track;
a missing name raises `KeyError`, caught by the `except`, giving `[]`;
every failure path (unset key, timeout, other exception, non-200) also
gives `[]`. -/
def get_recommendations (apiKey : Option Str) (o : HttpOutcome LastFmBody) :
    List Str :=
  match apiKey with
  | none => []
  | some _ =>
    match o with
    | .timeout => []
    | .error => []
    | .response status body =>
      if status = 200 then
        match (lastfm_track_list body).mapM (fun t => t.name) with
        | some names => names
        | none => []
      else []

/-- The string built for one mood entry:
`f"\x7btrack['name']\x7d - \x7btrack['artist']['name']\x7d"`; `none`
models the `KeyError` on a missing field. -/
def mood_entry (t : LastFmTrack) : Option Str := do
  let n ← t.name
  let a ← t.artist
  let an ← a.name
  some (n ++ str " - " ++ an)

/-- `MusicAPI.get_mood_songs` (src/main.py lines 140-159): like the
recommendation adapter but formatting each track as
`"name - artistName"`. -/
def get_mood_songs (apiKey : Option Str) (o : HttpOutcome LastFmBody) :
    List Str :=
  match apiKey with
  | none => []
  | some _ =>
    match o with
    | .timeout => []
    | .error => []
    | .response status body =>
      if status = 200 then
        match (lastfm_track_list body).mapM mood_entry with
        | some entries => entries
        | none => []
      else []

/-!
Session lifecycle (src/main.py lines 26-36).  The state records every
pool ever allocated (as its closed flag, in allocation order) together
with which pool `self.session` currently references, so that "at most one
live pool" is a real statement about all allocations, not only about the
current handle.
-/

/-- State of the session manager: closed flags of all pools ever
allocated, and the index of the pool `self.session` points at. -/
structure SessionSt where
  pools : List Bool
  current : Option Nat
deriving DecidableEq

/-- The state before any call: `self.session = None`. -/
def init_session_st : SessionSt := { pools := [], current := none }

/-- Whether the pool at index `i` is closed (out-of-range counts as
closed). -/
def pool_closed (s : SessionSt) (i : Nat) : Bool := (s.pools.getD i true)

/-- Python `self.session and not self.session.closed`. -/
def session_live (s : SessionSt) : Bool :=
  match s.current with
  | none => false
  | some i => !(pool_closed s i)

/-- `MusicAPI.create_session` (src/main.py lines 29-32): allocate a fresh
pool exactly when there is no session object or the existing one is
closed. -/
def create_session (s : SessionSt) : SessionSt :=
  if session_live s then s
  else { pools := s.pools ++ [false], current := some s.pools.length }

/-- `MusicAPI.close_session` (src/main.py lines 34-36): close the current
pool when one exists and is not yet closed; otherwise do nothing. -/
def close_session (s : SessionSt) : SessionSt :=
  match s.current with
  | none => s
  | some i => if pool_closed s i then s else { s with pools := s.pools.set i true }

/-- Number of pools allocated so far. -/
def alloc_count (s : SessionSt) : Nat := s.pools.length

/-- Number of pools currently live (allocated and not closed). -/
def live_count (s : SessionSt) : Nat := (s.pools.filter (fun c => !c)).length

/-- One call into the session manager. -/
inductive SessionOp where
  | create : SessionOp
  | close : SessionOp
deriving DecidableEq

/-- Interpretation of one session-manager call. -/
def run_session_op (s : SessionSt) : SessionOp → SessionSt
  | .create => create_session s
  | .close => close_session s

/-- Run a sequence of session-manager calls from a starting state. -/
def run_session_ops (s : SessionSt) (ops : List SessionOp) : SessionSt :=
  ops.foldl run_session_op s

/-- Invariant of the session manager: every pool but the most recently
allocated one is closed, and the handle points at the most recently
allocated pool when one exists. -/
def session_inv (s : SessionSt) : Prop :=
  (∃ k t, s.pools = List.replicate k true ++ t ∧ t.length ≤ 1) ∧
  s.current = (if s.pools.length = 0 then none else some (s.pools.length - 1))

/-!
Helper lemmas.
-/

theorem getD_concat_length (l : List Bool) (x d : Bool) :
    (l ++ [x]).getD l.length d = x := by
  induction l with
  | nil => rfl
  | cons a tl _ => simp [List.getD_cons_succ]

theorem getD_replicate_true (k i : Nat) :
    (List.replicate k true).getD i true = true := by
  induction k generalizing i with
  | zero => rfl
  | succ n ih =>
    cases i with
    | zero => rfl
    | succ m => simp [List.replicate_succ, List.getD_cons_succ, ih m]

theorem set_concat_length (l : List Bool) (x y : Bool) :
    (l ++ [x]).set l.length y = l ++ [y] := by
  induction l with
  | nil => rfl
  | cons a tl _ => simp

theorem filter_not_replicate_true (k : Nat) :
    (List.replicate k true).filter (fun c => !c) = [] := by
  induction k with
  | zero => rfl
  | succ n ih => simp [List.replicate_succ, List.filter_cons, ih]

theorem lt_length_of_getD_false (l : List Bool) (i : Nat)
    (h : l.getD i true = false) : i < l.length := by
  by_contra hn
  rw [List.getD_eq_default _ _ (by omega)] at h
  cases h

theorem getD_set_self (l : List Bool) (i : Nat) (x : Bool)
    (h : i < l.length) : (l.set i x).getD i true = x := by
  induction l generalizing i with
  | nil => simp at h
  | cons a tl ih =>
    cases i with
    | zero => rfl
    | succ n => simpa [List.getD_cons_succ] using ih n (by simpa using h)

theorem mapM_some_length {α β : Type} (f : α → Option β) :
    ∀ (ts : List α) (ns : List β), ts.mapM f = some ns → ns.length = ts.length := by
  intro ts
  induction ts with
  | nil =>
    intro ns h
    simp only [List.mapM_nil, pure, Option.some.injEq] at h
    simp [← h]
  | cons x tl ih =>
    intro ns h
    simp only [List.mapM_cons, Option.bind_eq_bind, Option.bind_eq_some, pure,
      Option.some.injEq] at h
    obtain ⟨b, hb, bs, hbs, rfl⟩ := h
    simp [ih bs hbs]

theorem mapM_loop_head_none {α β : Type} (f : α → Option β) (a : α)
    (as : List α) (acc : List β) (h : f a = none) :
    List.mapM.loop f (a :: as) acc = none := by
  simp [List.mapM.loop, h]

theorem findSep_eq_none_iff (seps : List Str) (q : Str) :
    findSep seps q = none ↔ ∀ sep ∈ seps, strContains q sep = false := by
  induction seps with
  | nil => simp [findSep]
  | cons sep rest ih =>
    cases h : splitOnce sep q with
    | some p =>
      obtain ⟨l, r⟩ := p
      simp only [findSep, h]
      constructor
      · intro hc; cases hc
      · intro hall
        have hsep := hall sep (by simp)
        rw [strContains, h] at hsep
        cases hsep
    | none =>
      have hc : strContains q sep = false := by rw [strContains, h]; rfl
      simp only [findSep, h]
      rw [ih]
      constructor
      · intro hall s hs
        rcases List.mem_cons.mp hs with rfl | hs'
        · exact hc
        · exact hall s hs'
      · intro hall s hs
        exact hall s (List.mem_cons_of_mem _ hs)

theorem findSep_eq_filter_head (seps : List Str) (q : Str) :
    findSep seps q =
      ((seps.filter (fun sep => strContains q sep)).head?).bind
        (fun sep => splitOnce sep q) := by
  induction seps with
  | nil => rfl
  | cons sep rest ih =>
    cases h : splitOnce sep q with
    | some p =>
      obtain ⟨l, r⟩ := p
      have hc : strContains q sep = true := by rw [strContains, h]; rfl
      simp [findSep, h, List.filter_cons, hc]
    | none =>
      have hc : strContains q sep = false := by rw [strContains, h]; rfl
      simp [findSep, h, List.filter_cons, hc, ih]

theorem truncAt_of_not_contains (pat s : Str)
    (h : strContains s pat = false) : truncAt pat s = s := by
  rw [strContains] at h
  unfold truncAt
  cases hs : splitOnce pat s with
  | none => rfl
  | some p => rw [hs] at h; cases h

theorem session_live_of_current_none (s : SessionSt)
    (h : s.current = none) : session_live s = false := by
  unfold session_live
  rw [h]

theorem session_live_of_current_some (s : SessionSt) (i : Nat)
    (h : s.current = some i) : session_live s = !(pool_closed s i) := by
  unfold session_live
  rw [h]

theorem create_session_of_live (s : SessionSt)
    (h : session_live s = true) : create_session s = s := by
  simp [create_session, h]

theorem create_session_of_dead (s : SessionSt)
    (h : session_live s = false) :
    create_session s =
      { pools := s.pools ++ [false], current := some s.pools.length } := by
  rw [create_session, if_neg (by rw [h]; simp)]

theorem close_session_of_current_none (s : SessionSt)
    (h : s.current = none) : close_session s = s := by
  unfold close_session
  rw [h]

theorem close_session_of_closed (s : SessionSt) (i : Nat)
    (h : s.current = some i) (hcl : pool_closed s i = true) :
    close_session s = s := by
  unfold close_session
  rw [h]
  simp [hcl]

theorem close_session_of_open (s : SessionSt) (i : Nat)
    (h : s.current = some i) (hcl : pool_closed s i = false) :
    close_session s = { s with pools := s.pools.set i true } := by
  unfold close_session
  rw [h]
  simp [hcl]

theorem session_live_create (s : SessionSt) :
    session_live (create_session s) = true := by
  cases h : session_live s with
  | true => rw [create_session_of_live s h]; exact h
  | false =>
    rw [create_session_of_dead s h]
    rw [session_live_of_current_some _ s.pools.length rfl]
    have hpc : pool_closed
        { pools := s.pools ++ [false], current := some s.pools.length }
        s.pools.length = false := by
      rw [pool_closed]
      exact getD_concat_length s.pools false true
    rw [hpc]
    rfl

theorem session_inv_init : session_inv init_session_st :=
  ⟨⟨0, [], rfl, by simp⟩, rfl⟩

theorem session_inv_create (s : SessionSt) (hs : session_inv s) :
    session_inv (create_session s) := by
  obtain ⟨⟨k, t, hp, ht⟩, hcur⟩ := hs
  cases hl : session_live s with
  | true => rw [create_session_of_live s hl]; exact ⟨⟨k, t, hp, ht⟩, hcur⟩
  | false =>
    have hall : ∃ m, s.pools = List.replicate m true := by
      rcases t with _ | ⟨b, t'⟩
      · exact ⟨k, by simpa using hp⟩
      · have ht' : t' = [] := by
          simp only [List.length_cons] at ht
          exact List.length_eq_zero.mp (by omega)
        subst ht'
        have hlen : s.pools.length = k + 1 := by rw [hp]; simp
        have hcur' : s.current = some k := by
          rw [hcur, if_neg (by omega)]
          simp [hlen]
        have hb : b = true := by
          have hlive := session_live_of_current_some s k hcur'
          rw [hl] at hlive
          have hgd : pool_closed s k = b := by
            rw [pool_closed, hp]
            have h2 := getD_concat_length (List.replicate k true) b true
            rw [List.length_replicate] at h2
            exact h2
          rw [hgd] at hlive
          revert hlive
          cases b <;> simp
        exact ⟨k + 1, by rw [hp, hb, ← List.replicate_succ']⟩
    obtain ⟨m, hm⟩ := hall
    rw [create_session_of_dead s hl]
    constructor
    · exact ⟨m, [false], by rw [hm], by simp⟩
    · simp

theorem session_inv_close (s : SessionSt) (hs : session_inv s) :
    session_inv (close_session s) := by
  obtain ⟨⟨k, t, hp, ht⟩, hcur⟩ := hs
  cases hc : s.current with
  | none =>
    rw [close_session_of_current_none s hc]
    exact ⟨⟨k, t, hp, ht⟩, hcur⟩
  | some i =>
    cases hcl : pool_closed s i with
    | true =>
      rw [close_session_of_closed s i hc hcl]
      exact ⟨⟨k, t, hp, ht⟩, hcur⟩
    | false =>
      rw [close_session_of_open s i hc hcl]
      have hlen0 : ¬ s.pools.length = 0 := by
        intro h0
        rw [hcur, if_pos h0] at hc
        cases hc
      have hi : i = s.pools.length - 1 := by
        rw [hcur, if_neg hlen0] at hc
        injection hc with hc'
        omega
      rcases t with _ | ⟨b, t'⟩
      · exfalso
        rw [pool_closed, hp] at hcl
        simp only [List.append_nil] at hcl
        rw [getD_replicate_true] at hcl
        exact Bool.noConfusion hcl
      · have ht' : t' = [] := by
          simp only [List.length_cons] at ht
          exact List.length_eq_zero.mp (by omega)
        subst ht'
        have hlen : s.pools.length = k + 1 := by rw [hp]; simp
        have hik : i = k := by omega
        subst hik
        have hset : s.pools.set i true = List.replicate i true ++ [true] := by
          rw [hp]
          have h2 := set_concat_length (List.replicate i true) b true
          rw [List.length_replicate] at h2
          exact h2
        constructor
        · exact ⟨i, [true], hset, by simp⟩
        · show s.current = _
          simp only [List.length_set]
          exact hcur

theorem live_count_le_one (s : SessionSt) (hs : session_inv s) :
    live_count s ≤ 1 := by
  obtain ⟨⟨k, t, hp, ht⟩, -⟩ := hs
  rw [live_count, hp, List.filter_append, filter_not_replicate_true]
  simp only [List.nil_append]
  exact le_trans (List.length_filter_le _ _) ht

theorem session_inv_run_op (s : SessionSt) (hs : session_inv s)
    (op : SessionOp) : session_inv (run_session_op s op) := by
  cases op
  · exact session_inv_create s hs
  · exact session_inv_close s hs

theorem session_inv_run (ops : List SessionOp) :
    session_inv (run_session_ops init_session_st ops) := by
  suffices h : ∀ s, session_inv s → session_inv (run_session_ops s ops) from
    h _ session_inv_init
  induction ops with
  | nil => intro s hs; exact hs
  | cons op rest ih => intro s hs; exact ih _ (session_inv_run_op s hs op)

/-!
Claim theorems.
-/

/-- C5: `fetch_json` returns the parsed JSON body if and only if the HTTP
status is 200; on any non-200 status, on timeout, and on any transport
failure it returns absent, and no exception crosses the boundary (the
model is a total function). -/
theorem C5_fetch_json_contract {β : Type} (o : HttpOutcome β) :
    (∀ b : β, o = HttpOutcome.response 200 b → fetch_json o = some b) ∧
    (∀ (status : Nat) (b : β), o = HttpOutcome.response status b →
      status ≠ 200 → fetch_json o = none) ∧
    (o = HttpOutcome.timeout → fetch_json o = none) ∧
    (o = HttpOutcome.error → fetch_json o = none) ∧
    ((fetch_json o).isSome → ∃ b : β, o = HttpOutcome.response 200 b) := by
  refine ⟨?_, ?_, ?_, ?_, ?_⟩
  · rintro b rfl; simp [fetch_json]
  · rintro status b rfl hst; simp [fetch_json, hst]
  · rintro rfl; rfl
  · rintro rfl; rfl
  · intro h
    cases o with
    | timeout => simp [fetch_json] at h
    | error => simp [fetch_json] at h
    | response status b =>
      by_cases hst : status = 200
      · subst hst; exact ⟨b, rfl⟩
      · simp [fetch_json, hst] at h

/-- Witness for C5 at concrete inputs: a 200 response yields its body, a
404 response and a timeout yield absent. -/
theorem C5_fetch_json_contract_witness :
    fetch_json (HttpOutcome.response 200 (str "payload")) = some (str "payload") ∧
    fetch_json (HttpOutcome.response 404 (str "payload")) = none ∧
    fetch_json (HttpOutcome.timeout : HttpOutcome Str) = none :=
  ⟨(C5_fetch_json_contract (HttpOutcome.response 200 (str "payload"))).1 _ rfl,
   (C5_fetch_json_contract (HttpOutcome.response 404 (str "payload"))).2.1 404 _ rfl
     (by decide),
   (C5_fetch_json_contract (HttpOutcome.timeout : HttpOutcome Str)).2.2.1 rfl⟩

/-- C6: `get_lyrics` returns the lyrics field when present, returns
"Error: " prefixed to the error field when only that is present
(so the provider error "No lyrics found" surfaces as the literal string
"Error: No lyrics found"), and returns absent on transport failure or
when both fields are missing. -/
theorem C6_get_lyrics_contract (o : HttpOutcome LyricsBody) :
    (∀ b l, o = HttpOutcome.response 200 b → b.lyrics = some l →
      get_lyrics o = some l) ∧
    (∀ b e, o = HttpOutcome.response 200 b → b.lyrics = none →
      b.error = some e → get_lyrics o = some (str "Error: " ++ e)) ∧
    (∀ b, o = HttpOutcome.response 200 b → b.lyrics = none →
      b.error = none → get_lyrics o = none) ∧
    (o = HttpOutcome.timeout → get_lyrics o = none) ∧
    (o = HttpOutcome.error → get_lyrics o = none) ∧
    get_lyrics (HttpOutcome.response 200 ⟨none, some (str "No lyrics found")⟩) =
      some (str "Error: No lyrics found") := by
  refine ⟨?_, ?_, ?_, ?_, ?_, by decide⟩
  · rintro b l rfl hl; simp [get_lyrics, fetch_json, hl]
  · rintro b e rfl hl he; simp [get_lyrics, fetch_json, hl, he]
  · rintro b rfl hl he; simp [get_lyrics, fetch_json, hl, he]
  · rintro rfl; rfl
  · rintro rfl; rfl

/-- Witness for C6 at concrete inputs: a lyrics field is returned as-is,
the error field is returned with the "Error: " prefix, and an empty
object yields absent. -/
theorem C6_get_lyrics_contract_witness :
    get_lyrics (HttpOutcome.response 200 ⟨some (str "la la la"), none⟩) =
      some (str "la la la") ∧
    get_lyrics (HttpOutcome.response 200 ⟨none, some (str "No lyrics found")⟩) =
      some (str "Error: No lyrics found") ∧
    get_lyrics (HttpOutcome.response 200 ⟨none, none⟩) = none :=
  ⟨(C6_get_lyrics_contract (HttpOutcome.response 200 ⟨some (str "la la la"), none⟩)).1
      _ _ rfl rfl,
   (C6_get_lyrics_contract
      (HttpOutcome.response 200 ⟨none, some (str "No lyrics found")⟩)).2.2.2.2.2,
   (C6_get_lyrics_contract (HttpOutcome.response 200 ⟨none, none⟩)).2.2.1
      _ rfl rfl rfl⟩

/-- C9: the session manager allocates at most one live pool: a second
`create_session` without an intervening close is a no-op and allocates
nothing, `close_session` on a closed or never-opened session is a no-op
and is idempotent, after a close the next `create_session` yields a live
pool again, and along every call sequence from the initial state at most
one pool is live. -/
theorem C9_session_lifecycle (s : SessionSt) (ops : List SessionOp) :
    (create_session (create_session s) = create_session s) ∧
    (session_live s = false →
      alloc_count (create_session s) = alloc_count s + 1) ∧
    (session_live s = true → create_session s = s) ∧
    (session_live s = false → close_session s = s) ∧
    (close_session (close_session s) = close_session s) ∧
    (session_live (create_session (close_session s)) = true) ∧
    (live_count (run_session_ops init_session_st ops) ≤ 1) := by
  refine ⟨?_, ?_, ?_, ?_, ?_, session_live_create _,
    live_count_le_one _ (session_inv_run ops)⟩
  · exact create_session_of_live _ (session_live_create s)
  · intro h
    rw [create_session_of_dead s h]
    simp [alloc_count]
  · exact create_session_of_live s
  · intro h
    cases hc : s.current with
    | none => exact close_session_of_current_none s hc
    | some i =>
      have hlive := session_live_of_current_some s i hc
      rw [h] at hlive
      have hcl : pool_closed s i = true := by
        revert hlive; cases pool_closed s i <;> simp
      exact close_session_of_closed s i hc hcl
  · cases hc : s.current with
    | none =>
      rw [close_session_of_current_none s hc,
        close_session_of_current_none s hc]
    | some i =>
      cases hcl : pool_closed s i with
      | true =>
        rw [close_session_of_closed s i hc hcl,
          close_session_of_closed s i hc hcl]
      | false =>
        rw [close_session_of_open s i hc hcl]
        have hlt : i < s.pools.length := lt_length_of_getD_false _ _ hcl
        have hcl2 : pool_closed { s with pools := s.pools.set i true } i = true := by
          rw [pool_closed]
          exact getD_set_self s.pools i true hlt
        exact close_session_of_closed _ i hc hcl2

/-- Witness for C9 at concrete states: from the initial state, two
creates allocate one pool, close on the never-opened state is a no-op,
and the sequence create-create-close-create keeps at most one pool
live. -/
theorem C9_session_lifecycle_witness :
    create_session (create_session init_session_st) =
      create_session init_session_st ∧
    alloc_count (create_session init_session_st) =
      alloc_count init_session_st + 1 ∧
    close_session init_session_st = init_session_st ∧
    live_count (run_session_ops init_session_st
      [SessionOp.create, SessionOp.create, SessionOp.close,
        SessionOp.create]) ≤ 1 := by
  have h := C9_session_lifecycle init_session_st
    [SessionOp.create, SessionOp.create, SessionOp.close, SessionOp.create]
  exact ⟨h.1, h.2.1 (by decide), h.2.2.2.1 (by decide), h.2.2.2.2.2.2⟩

/-- C1 counterexample: on "Hello by Adele  ft. X" (two spaces before
"ft.") the claim's trim-then-truncate order leaves the artist with a
trailing space, while the code strips again after truncating; and on
"Hello by " the claim's procedure returns a pair with an empty artist,
while the code takes its fallback (parse-failure) path. -/
theorem C1_query_parser_cex :
    parse_query_as_claimed (str "Hello by Adele  ft. X") =
      some (str "Hello", str "Adele ") ∧
    parse_query (str "Hello by Adele  ft. X") =
      some (str "Hello", str "Adele") ∧
    parse_query_as_claimed (str "Hello by ") = some (str "Hello", str "") ∧
    parse_query (str "Hello by ") = none := by
  refine ⟨by decide, by decide, by decide, by decide⟩

/-- C1 amended: the parser splits once at the first occurrence of the
highest-priority separator present, assigns the left piece to title and
the right piece to artist, strips both, fails when the artist piece
strips to empty, truncates the artist at " ft." then " feat." and the
title at " (", and strips both again; consequently every well-formed
"title - artist" string parses to its two pieces, and
"Shape of You by Ed Sheeran" parses to title "Shape of You" and artist
"Ed Sheeran". -/
theorem C1_query_parser_amended (q t a : Str) :
    (parse_query q =
      (highest_priority_sep q).bind (fun sep =>
        (splitOnce sep q).bind (fun p =>
          if pyStrip p.2 = [] then none
          else
            some (pyStrip (truncAt (str " (") (pyStrip p.1)),
              pyStrip (truncAt (str " feat.")
                (truncAt (str " ft.") (pyStrip p.2))))))) ∧
    (well_formed_title_artist t a →
      parse_query (t ++ str " - " ++ a) = some (t, a)) ∧
    (parse_query (str "Shape of You by Ed Sheeran") =
      some (str "Shape of You", str "Ed Sheeran")) := by
  refine ⟨?_, ?_, by decide⟩
  · rw [parse_query, findSep_eq_filter_head]
    rw [highest_priority_sep]
    cases hh : (separators.filter (fun sep => strContains q sep)).head? with
    | none => rfl
    | some sep =>
      simp only [Option.some_bind]
      cases hsp : splitOnce sep q with
      | none => rfl
      | some p =>
        obtain ⟨l, r⟩ := p
        rfl
  · rintro ⟨hby, hsplit, hst, hsa, htne, hane, hft, hfeat, hpar⟩
    have hbyn : splitOnce (str " by ") (t ++ str " - " ++ a) = none := by
      rw [strContains] at hby
      cases hsp : splitOnce (str " by ") (t ++ str " - " ++ a) with
      | none => rfl
      | some p => rw [hsp] at hby; exact Bool.noConfusion hby
    have hfind : findSep separators (t ++ str " - " ++ a) = some (t, a) := by
      show (match splitOnce (str " by ") (t ++ str " - " ++ a) with
        | some (l, r) => some (l, r)
        | none =>
          match splitOnce (str " - ") (t ++ str " - " ++ a) with
          | some (l, r) => some (l, r)
          | none =>
            match splitOnce (str " | ") (t ++ str " - " ++ a) with
            | some (l, r) => some (l, r)
            | none => none) = some (t, a)
      rw [hbyn, hsplit]
    rw [parse_query, hfind]
    simp only [hst, hsa]
    rw [if_neg hane]
    rw [truncAt_of_not_contains _ _ hft, truncAt_of_not_contains _ _ hfeat,
      truncAt_of_not_contains _ _ hpar, hst, hsa]

/-- Witness for C1 at concrete inputs: the documented example and one
well-formed "title - artist" string. -/
theorem C1_query_parser_witness :
    parse_query (str "Shape of You by Ed Sheeran") =
      some (str "Shape of You", str "Ed Sheeran") ∧
    parse_query (str "Cruel Summer - Taylor Swift") =
      some (str "Cruel Summer", str "Taylor Swift") :=
  ⟨(C1_query_parser_amended (str "q") (str "t") (str "a")).2.2,
   (C1_query_parser_amended (str "q") (str "Cruel Summer")
      (str "Taylor Swift")).2.1 (by decide)⟩

/-- C2 counterexample: " by Adele" contains a separator and its title
piece strips to the empty string, yet the parser succeeds with an empty
title instead of failing as the claim requires. -/
theorem C2_parse_failure_cex :
    parse_query (str " by Adele") = some (str "", str "Adele") := by decide

/-- C2 amended: the parser fails exactly when no recognized separator
occurs or when the artist-side piece strips to empty (an empty title does
not cause failure, because the code only tests the artist for
falsiness); whenever a separator is present and the artist side is
non-empty after stripping, parsing succeeds with a non-empty artist. -/
theorem C2_parse_failure_amended (q : Str) :
    (parse_query q = none ↔
      ((∀ sep ∈ separators, strContains q sep = false) ∨
        (∃ l r, findSep separators q = some (l, r) ∧ pyStrip r = []))) ∧
    (∀ l r, findSep separators q = some (l, r) → pyStrip r ≠ [] →
      ∃ ti ar, parse_query q = some (ti, ar)) := by
  constructor
  · cases hf : findSep separators q with
    | none =>
      constructor
      · intro _
        exact Or.inl ((findSep_eq_none_iff separators q).mp hf)
      · intro _
        simp [parse_query, hf]
    | some p =>
      obtain ⟨l, r⟩ := p
      by_cases he : pyStrip r = []
      · constructor
        · intro _
          exact Or.inr ⟨l, r, rfl, he⟩
        · intro _
          simp [parse_query, hf, he]
      · constructor
        · intro hc
          exact absurd hc (by simp [parse_query, hf, he])
        · rintro (hall | ⟨l', r', hf', he'⟩)
          · exfalso
            rw [(findSep_eq_none_iff separators q).mpr hall] at hf
            exact Option.noConfusion hf
          · exfalso
            injection hf' with hp'
            injection hp' with h1 h2
            subst h2
            exact he he'
  · intro l r hf he
    refine ⟨pyStrip (truncAt (str " (") (pyStrip l)),
      pyStrip (truncAt (str " feat.") (truncAt (str " ft.") (pyStrip r))), ?_⟩
    simp only [parse_query, hf]
    rw [if_neg he]

/-- Witness for C2 at concrete inputs: a string with no separator fails,
and a separator with a non-empty artist side succeeds. -/
theorem C2_parse_failure_witness :
    parse_query (str "no separator here") = none ∧
    ∃ ti ar, parse_query (str "A - B") = some (ti, ar) :=
  ⟨((C2_parse_failure_amended (str "no separator here")).1).mpr
      (Or.inl (by decide)),
   (C2_parse_failure_amended (str "A - B")).2 (str "A") (str "B")
      (by decide) (by decide)⟩

/-- C3 counterexample: a 200 response with one recording that is an
empty JSON object has at least one recording, yet `search_track` returns
absent instead of a sentinel-filled TrackRecord, because
`recording['id']` raises and the exception handler returns `None`. -/
theorem C3_search_track_cex :
    search_track (HttpOutcome.response 200
      ⟨some [⟨none, none, none, none, none, none⟩]⟩) = none := by decide

/-- C3 amended: zero recordings (or a missing or empty array, a non-200
status, or a transport failure) yield absent; a first recording carrying
an id, whose artist-credit is not an empty array and whose first three
tags all carry names, is normalized into the claimed TrackRecord with
sentinel defaults, duration length/1000, parenthesized release date and
at most 3 tag names; recordings violating those side conditions yield
absent via the caught exception. -/
theorem C3_search_track_amended (status : Nat) (b : SearchBody)
    (r : RecordingJson) (rest : List RecordingJson) (rid : Str)
    (names : List Str) :
    (search_track HttpOutcome.timeout = none) ∧
    (search_track HttpOutcome.error = none) ∧
    (status ≠ 200 → search_track (HttpOutcome.response status b) = none) ∧
    (b.recordings = none → search_track (HttpOutcome.response 200 b) = none) ∧
    (b.recordings = some [] →
      search_track (HttpOutcome.response 200 b) = none) ∧
    (r.id = some rid → r.artistCredit ≠ some [] →
      ((r.tags.getD []).take 3).mapM (fun tg => tg.name) = some names →
      search_track (HttpOutcome.response 200 ⟨some (r :: rest)⟩) = some
        { title := r.title.getD (str "Unknown Track")
          artist :=
            match r.artistCredit with
            | some (ac :: _) => ac.name.getD (str "Unknown Artist")
            | _ => str "Unknown Artist"
          album :=
            (match r.releases with
             | some (rel :: _) => rel.title.getD (str "Unknown Album")
             | _ => str "Unknown Album") ++
            (match r.releases with
             | some (rel :: _) =>
               match rel.date with
               | some d => str " (" ++ d ++ str ")"
               | none => []
             | _ => [])
          duration := r.length.getD 0 / 1000
          url := str "https://musicbrainz.org/recording/" ++ rid
          tags := names }) := by
  refine ⟨rfl, rfl, ?_, ?_, ?_, ?_⟩
  · intro h
    simp [search_track, h]
  · intro h
    simp [search_track, h]
  · intro h
    simp [search_track, h]
  · intro hid hac htags
    have hs : search_track (HttpOutcome.response 200 ⟨some (r :: rest)⟩) =
        format_track r := by
      simp [search_track]
    rw [hs]
    have htags2 : List.mapM.loop (fun tg => tg.name)
        ((r.tags.getD []).take 3) [] = some names := htags
    cases hac0 : r.artistCredit with
    | none => simp [format_track, hac0, hid, htags2]
    | some acl =>
      cases acl with
      | nil => exact absurd hac0 hac
      | cons ac acr => simp [format_track, hac0, hid, htags2]

/-- Witness for C3 at a concrete well-formed recording: the documented
215000 ms example yields duration 215 and the normalized fields. -/
theorem C3_search_track_amended_witness :
    search_track (HttpOutcome.response 200
      ⟨some [⟨some (str "abc123"), some (str "Shape of You"), some 215000,
        some [⟨some (str "Divide"), some (str "2017-03-03")⟩],
        some [⟨some (str "Ed Sheeran")⟩], some [⟨some (str "pop")⟩]⟩]⟩) =
    some
      { title := str "Shape of You", artist := str "Ed Sheeran",
        album := str "Divide (2017-03-03)", duration := 215,
        url := str "https://musicbrainz.org/recording/abc123",
        tags := [str "pop"] } := by
  have h := (C3_search_track_amended 200 ⟨none⟩
    ⟨some (str "abc123"), some (str "Shape of You"), some 215000,
      some [⟨some (str "Divide"), some (str "2017-03-03")⟩],
      some [⟨some (str "Ed Sheeran")⟩], some [⟨some (str "pop")⟩]⟩
    [] (str "abc123") [str "pop"]).2.2.2.2.2 rfl (by decide) (by decide)
  rw [h]
  decide

/-- C4 counterexample: the trending adapter returns the provider's chart
entries unchanged — the returned entry still carries the provider's id
field 7 — rather than entries reduced to title/artistName pairs as the
claim states. -/
theorem C4_get_trending_cex :
    get_trending (HttpOutcome.response 200
      ⟨some ⟨some [⟨str "Song", ⟨str "Artist"⟩, 7⟩]⟩⟩) =
      [⟨str "Song", ⟨str "Artist"⟩, 7⟩] ∧
    get_trending_as_claimed (HttpOutcome.response 200
      ⟨some ⟨some [⟨str "Song", ⟨str "Artist"⟩, 7⟩]⟩⟩) =
      [⟨str "Song", str "Artist"⟩] :=
  ⟨by decide, by decide⟩

/-- C4 amended: `get_trending` returns at most the first 10 entries of
the provider's track list unchanged (the reduction to title/artistName
happens later, in the rendering layer), preserving provider order, with
50 upstream entries yielding exactly 10; every failure path — timeout,
transport error, non-200 status, missing fields — yields the empty list,
never an absent or error value. -/
theorem C4_get_trending_amended (o : HttpOutcome ChartsBody) (status : Nat)
    (b : ChartsBody) (ct : ChartsTracks) (l : List DeezerTrack) :
    ((get_trending o).length ≤ 10) ∧
    (b.tracks = some ct → ct.data = some l →
      get_trending (HttpOutcome.response 200 b) = l.take 10) ∧
    (b.tracks = some ct → ct.data = some l → l.length = 50 →
      (get_trending (HttpOutcome.response 200 b)).length = 10) ∧
    (get_trending HttpOutcome.timeout = []) ∧
    (get_trending HttpOutcome.error = []) ∧
    (status ≠ 200 → get_trending (HttpOutcome.response status b) = []) ∧
    (b.tracks = none → get_trending (HttpOutcome.response 200 b) = []) ∧
    (b.tracks = some ct → ct.data = none →
      get_trending (HttpOutcome.response 200 b) = []) := by
  have htake : ∀ xs : List DeezerTrack, (xs.take 10).length ≤ 10 := by
    intro xs
    rw [List.length_take]
    omega
  refine ⟨?_, ?_, ?_, rfl, rfl, ?_, ?_, ?_⟩
  · cases o with
    | timeout => simp [get_trending]
    | error => simp [get_trending]
    | response status' b' =>
      by_cases h : status' = 200
      · subst h
        simp only [get_trending, if_pos rfl]
        exact htake _
      · simp [get_trending, h]
  · intro h1 h2
    simp [get_trending, h1, h2]
  · intro h1 h2 h3
    have h4 : get_trending (HttpOutcome.response 200 b) = l.take 10 := by
      simp [get_trending, h1, h2]
    rw [h4, List.length_take, h3]
    decide
  · intro h
    simp [get_trending, h]
  · intro h
    simp [get_trending, h]
  · intro h1 h2
    simp [get_trending, h1, h2]

/-- Witness for C4 at a concrete 50-entry chart: exactly the first 10
entries come back, in order. -/
theorem C4_get_trending_amended_witness :
    get_trending (HttpOutcome.response 200
      ⟨some ⟨some (List.replicate 50
        (⟨str "S", ⟨str "A"⟩, 1⟩ : DeezerTrack))⟩⟩) =
      List.replicate 10 (⟨str "S", ⟨str "A"⟩, 1⟩ : DeezerTrack) ∧
    (get_trending (HttpOutcome.response 200
      ⟨some ⟨some (List.replicate 50
        (⟨str "S", ⟨str "A"⟩, 1⟩ : DeezerTrack))⟩⟩)).length = 10 := by
  have h := C4_get_trending_amended HttpOutcome.timeout 200
    ⟨some ⟨some (List.replicate 50 (⟨str "S", ⟨str "A"⟩, 1⟩ : DeezerTrack))⟩⟩
    ⟨some (List.replicate 50 (⟨str "S", ⟨str "A"⟩, 1⟩ : DeezerTrack))⟩
    (List.replicate 50 (⟨str "S", ⟨str "A"⟩, 1⟩ : DeezerTrack))
  constructor
  · rw [h.2.1 rfl rfl]
    decide
  · exact h.2.2.1 rfl rfl (by simp)

/-- C7: the recommendation and mood adapters build identical requests to
the tag-based top-tracks endpoint (same method, tag, api key, format and
fixed limit 5) and differ only in output shape — bare track names versus
"name - artistName" strings; every failure, including an unset API key,
a timeout, any other transport error, and a non-200 status, yields the
empty list. -/
theorem C7_recommendation_mood (apiKey : Option Str) (tag : Str)
    (o : HttpOutcome LastFmBody) (k : Str) (b : LastFmBody) (status : Nat)
    (names entries : List Str) (nm an : Str) :
    (recommendations_params apiKey tag = mood_params apiKey tag) ∧
    ((recommendations_params apiKey tag).limit = 5) ∧
    ((recommendations_params apiKey tag).method = str "tag.gettoptracks") ∧
    ((lastfm_track_list b).mapM (fun tr => tr.name) = some names →
      get_recommendations (some k) (HttpOutcome.response 200 b) = names) ∧
    ((lastfm_track_list b).mapM mood_entry = some entries →
      get_mood_songs (some k) (HttpOutcome.response 200 b) = entries) ∧
    (mood_entry ⟨some nm, some ⟨some an⟩⟩ = some (nm ++ str " - " ++ an)) ∧
    (get_recommendations none o = []) ∧
    (get_mood_songs none o = []) ∧
    (get_recommendations apiKey HttpOutcome.timeout = []) ∧
    (get_mood_songs apiKey HttpOutcome.timeout = []) ∧
    (get_recommendations apiKey HttpOutcome.error = []) ∧
    (get_mood_songs apiKey HttpOutcome.error = []) ∧
    (status ≠ 200 →
      get_recommendations apiKey (HttpOutcome.response status b) = []) ∧
    (status ≠ 200 →
      get_mood_songs apiKey (HttpOutcome.response status b) = []) := by
  refine ⟨rfl, rfl, rfl, ?_, ?_, rfl, rfl, rfl, ?_, ?_, ?_, ?_, ?_, ?_⟩
  · intro h
    have he : get_recommendations (some k) (HttpOutcome.response 200 b) =
        match (lastfm_track_list b).mapM (fun tr => tr.name) with
        | some names => names
        | none => [] := rfl
    rw [he, h]
  · intro h
    have he : get_mood_songs (some k) (HttpOutcome.response 200 b) =
        match (lastfm_track_list b).mapM mood_entry with
        | some entries => entries
        | none => [] := rfl
    rw [he, h]
  · cases apiKey <;> rfl
  · cases apiKey <;> rfl
  · cases apiKey <;> rfl
  · cases apiKey <;> rfl
  · intro h
    cases apiKey <;> simp [get_recommendations, h]
  · intro h
    cases apiKey <;> simp [get_mood_songs, h]

/-- Witness for C7 at a concrete two-track response: the recommendation
adapter returns the bare names, the mood adapter the formatted pairs,
and an unset API key yields the empty list. -/
theorem C7_recommendation_mood_witness :
    get_recommendations (some (str "KEY")) (HttpOutcome.response 200
      ⟨some ⟨some [⟨some (str "Song1"), some ⟨some (str "Artist1")⟩⟩,
        ⟨some (str "Song2"), some ⟨some (str "Artist2")⟩⟩]⟩⟩) =
      [str "Song1", str "Song2"] ∧
    get_mood_songs (some (str "KEY")) (HttpOutcome.response 200
      ⟨some ⟨some [⟨some (str "Song1"), some ⟨some (str "Artist1")⟩⟩,
        ⟨some (str "Song2"), some ⟨some (str "Artist2")⟩⟩]⟩⟩) =
      [str "Song1 - Artist1", str "Song2 - Artist2"] ∧
    get_recommendations none (HttpOutcome.response 200
      ⟨some ⟨some [⟨some (str "Song1"), some ⟨some (str "Artist1")⟩⟩,
        ⟨some (str "Song2"), some ⟨some (str "Artist2")⟩⟩]⟩⟩) = [] ∧
    recommendations_params (some (str "KEY")) (str "rock") =
      mood_params (some (str "KEY")) (str "rock") := by
  have h := C7_recommendation_mood (some (str "KEY")) (str "rock")
    (HttpOutcome.response 200
      ⟨some ⟨some [⟨some (str "Song1"), some ⟨some (str "Artist1")⟩⟩,
        ⟨some (str "Song2"), some ⟨some (str "Artist2")⟩⟩]⟩⟩)
    (str "KEY")
    ⟨some ⟨some [⟨some (str "Song1"), some ⟨some (str "Artist1")⟩⟩,
      ⟨some (str "Song2"), some ⟨some (str "Artist2")⟩⟩]⟩⟩
    200 [str "Song1", str "Song2"]
    [str "Song1 - Artist1", str "Song2 - Artist2"] (str "x") (str "y")
  exact ⟨h.2.2.2.1 (by decide), h.2.2.2.2.1 (by decide),
    h.2.2.2.2.2.2.1, h.1⟩

/-- C8 counterexample: a 200 mood response whose list holds one complete
track and one track missing its fields returns the empty list — the
missing field turns the whole successful response into the no-data
outcome instead of yielding the well-formed entry. -/
theorem C8_missing_fields_cex :
    get_mood_songs (some (str "KEY")) (HttpOutcome.response 200
      ⟨some ⟨some [⟨some (str "Good Song"), some ⟨some (str "Good Artist")⟩⟩,
        ⟨none, none⟩]⟩⟩) = [] := by decide

/-- C8 amended: fields read with `.get` defaults (title, length,
releases, artist-credit names, tags array) degrade to sentinel values;
but a recording without an id, an artist-credit that is an empty array,
and a recommendation/mood track without a name abort the operation
through the caught exception into the adapter's no-data outcome (absent
or the empty list), discarding any well-formed entries. -/
theorem C8_missing_fields_amended (i2 : Str) (k : Str) (b : LastFmBody)
    (tr : LastFmTrack) (ts : List LastFmTrack) :
    (format_track ⟨some i2, none, none, none, none, none⟩ = some
      { title := str "Unknown Track", artist := str "Unknown Artist",
        album := str "Unknown Album", duration := 0,
        url := str "https://musicbrainz.org/recording/" ++ i2,
        tags := [] }) ∧
    (∀ r : RecordingJson, r.id = none → format_track r = none) ∧
    (format_track ⟨some i2, none, none, none, some [], none⟩ = none) ∧
    (lastfm_track_list b = tr :: ts → tr.name = none →
      get_mood_songs (some k) (HttpOutcome.response 200 b) = []) ∧
    (lastfm_track_list b = tr :: ts → tr.name = none →
      get_recommendations (some k) (HttpOutcome.response 200 b) = []) := by
  refine ⟨?_, ?_, rfl, ?_, ?_⟩
  · simp [format_track, List.mapM.loop]
  · intro r hid
    cases hac0 : r.artistCredit with
    | none => simp [format_track, hac0, hid]
    | some acl =>
      cases acl with
      | nil => simp [format_track, hac0]
      | cons ac acr => simp [format_track, hac0, hid]
  · intro h1 h2
    have he : get_mood_songs (some k) (HttpOutcome.response 200 b) =
        match (lastfm_track_list b).mapM mood_entry with
        | some entries => entries
        | none => [] := rfl
    have he2 : (lastfm_track_list b).mapM mood_entry = none := by
      rw [h1]
      exact mapM_loop_head_none mood_entry tr ts []
        (by simp [mood_entry, h2])
    rw [he, he2]
  · intro h1 h2
    have he : get_recommendations (some k) (HttpOutcome.response 200 b) =
        match (lastfm_track_list b).mapM (fun tr => tr.name) with
        | some names => names
        | none => [] := rfl
    have he2 : (lastfm_track_list b).mapM (fun tr => tr.name) = none := by
      rw [h1]
      exact mapM_loop_head_none (fun tr => tr.name) tr ts [] h2
    rw [he, he2]

/-- Witness for C8 at concrete inputs: sentinel degradation for a
recording with only an id, the abort on a recording without an id, and
the abort of a mood list whose only track lacks a name. -/
theorem C8_missing_fields_amended_witness :
    format_track ⟨some (str "id9"), none, none, none, none, none⟩ = some
      { title := str "Unknown Track", artist := str "Unknown Artist",
        album := str "Unknown Album", duration := 0,
        url := str "https://musicbrainz.org/recording/id9", tags := [] } ∧
    format_track ⟨none, some (str "T"), none, none, none, none⟩ = none ∧
    get_mood_songs (some (str "K2")) (HttpOutcome.response 200
      ⟨some ⟨some [⟨none, some ⟨some (str "A")⟩⟩]⟩⟩) = [] := by
  have h := C8_missing_fields_amended (str "id9") (str "K2")
    ⟨some ⟨some [⟨none, some ⟨some (str "A")⟩⟩]⟩⟩
    ⟨none, some ⟨some (str "A")⟩⟩ []
  refine ⟨?_, h.2.1 ⟨none, some (str "T"), none, none, none, none⟩ rfl,
    h.2.2.2.1 (by decide) rfl⟩
  rw [h.1]
  decide

/-- C10: with a 200 response whose track list is fully well-formed, the
recommendation and mood adapters return exactly one string per listed
track — the limit of 5 is only a request parameter, not enforced on the
result — while the trending adapter caps its result at 10. -/
theorem C10_no_client_limit (k : Str) (b : LastFmBody)
    (names entries : List Str) (l : List DeezerTrack) (ct : ChartsTracks)
    (cb : ChartsBody) :
    ((lastfm_track_list b).mapM (fun tr => tr.name) = some names →
      (get_recommendations (some k) (HttpOutcome.response 200 b)).length =
        (lastfm_track_list b).length) ∧
    ((lastfm_track_list b).mapM mood_entry = some entries →
      (get_mood_songs (some k) (HttpOutcome.response 200 b)).length =
        (lastfm_track_list b).length) ∧
    (cb.tracks = some ct → ct.data = some l →
      (get_trending (HttpOutcome.response 200 cb)).length =
        min 10 l.length) := by
  refine ⟨?_, ?_, ?_⟩
  · intro h
    have he : get_recommendations (some k) (HttpOutcome.response 200 b) =
        match (lastfm_track_list b).mapM (fun tr => tr.name) with
        | some names => names
        | none => [] := rfl
    rw [he, h, mapM_some_length _ _ _ h]
  · intro h
    have he : get_mood_songs (some k) (HttpOutcome.response 200 b) =
        match (lastfm_track_list b).mapM mood_entry with
        | some entries => entries
        | none => [] := rfl
    rw [he, h, mapM_some_length _ _ _ h]
  · intro h1 h2
    have he : get_trending (HttpOutcome.response 200 cb) = l.take 10 := by
      simp [get_trending, h1, h2]
    rw [he, List.length_take]

/-- Witness for C10 at a concrete six-track response: both adapters
return six strings even though the requested limit is 5. -/
theorem C10_no_client_limit_witness :
    (get_recommendations (some (str "K3")) (HttpOutcome.response 200
      ⟨some ⟨some [⟨some (str "S1"), some ⟨some (str "A1")⟩⟩,
        ⟨some (str "S2"), some ⟨some (str "A2")⟩⟩,
        ⟨some (str "S3"), some ⟨some (str "A3")⟩⟩,
        ⟨some (str "S4"), some ⟨some (str "A4")⟩⟩,
        ⟨some (str "S5"), some ⟨some (str "A5")⟩⟩,
        ⟨some (str "S6"), some ⟨some (str "A6")⟩⟩]⟩⟩)).length = 6 ∧
    (get_mood_songs (some (str "K3")) (HttpOutcome.response 200
      ⟨some ⟨some [⟨some (str "S1"), some ⟨some (str "A1")⟩⟩,
        ⟨some (str "S2"), some ⟨some (str "A2")⟩⟩,
        ⟨some (str "S3"), some ⟨some (str "A3")⟩⟩,
        ⟨some (str "S4"), some ⟨some (str "A4")⟩⟩,
        ⟨some (str "S5"), some ⟨some (str "A5")⟩⟩,
        ⟨some (str "S6"), some ⟨some (str "A6")⟩⟩]⟩⟩)).length = 6 := by
  have h := C10_no_client_limit (str "K3")
    ⟨some ⟨some [⟨some (str "S1"), some ⟨some (str "A1")⟩⟩,
      ⟨some (str "S2"), some ⟨some (str "A2")⟩⟩,
      ⟨some (str "S3"), some ⟨some (str "A3")⟩⟩,
      ⟨some (str "S4"), some ⟨some (str "A4")⟩⟩,
      ⟨some (str "S5"), some ⟨some (str "A5")⟩⟩,
      ⟨some (str "S6"), some ⟨some (str "A6")⟩⟩]⟩⟩
    [str "S1", str "S2", str "S3", str "S4", str "S5", str "S6"]
    [str "S1 - A1", str "S2 - A2", str "S3 - A3",
      str "S4 - A4", str "S5 - A5", str "S6 - A6"]
    [] ⟨none⟩ ⟨none⟩
  constructor
  · rw [h.1 (by decide)]
    decide
  · rw [h.2.1 (by decide)]
    decide

end Praveshan
